import Mathlib

/-!
Verification of the publishing-state and moderation workflow of a Django
blog platform.  The definitions below are shallow embeddings of the Python
source: `content/models.py`, `blog_app/models.py`, `blog_app/api_views.py`,
`content/views.py`, `comments/api_views.py`, `comments/serializers.py`,
`content/serializers.py`, and `comments/models.py`.  Machine times are
modelled as natural numbers, users by an id plus a staff flag, and Django
querysets by lists kept in their Meta default ordering.
-/

/-- A `PostStatus` row (`blog_app/models.py` and `content/models.py` declare
the same fields): a named publication state with an `is_published` flag. -/
structure PostStatus where
  name : String
  slug : String
  is_published : Bool
  is_active : Bool
  sort_order : Nat
deriving Repr, DecidableEq

/-- The fields of a `Post` row that the publishing workflow touches.
`status` is a nullable foreign key, embedded here as the referenced row
(the Python code always accesses it as an object); `published_at` is a
nullable timestamp; `content` is the body text. -/
structure Post where
  id : Nat
  slug : String
  author : Nat
  content : List Char
  status : Option PostStatus
  published_at : Option Nat
deriving Repr, DecidableEq

/-- The actor identity handed to the views by the HTTP layer:
`request.user.id` and `request.user.is_staff`. -/
structure UserRec where
  id : Nat
  is_staff : Bool
deriving Repr, DecidableEq

/-- A `Comment` row (consolidated fields of `comments/models.py` and
`content/models.py`): `post`, `author` and `parent` are kept as ids. -/
structure Comment where
  id : Nat
  post : Nat
  author : Nat
  content : List Char
  parent : Option Nat
  is_approved : Bool
  is_flagged : Bool
deriving Repr, DecidableEq

/-- A moderation action value of `CommentModeration.MODERATION_ACTIONS`. -/
inductive ModAction where
  | approved
  | rejected
  | flagged
  | spam
deriving Repr, DecidableEq

/-- A `CommentModeration` log row. -/
structure CommentModeration where
  comment : Nat
  moderator : Nat
  action : ModAction
deriving Repr, DecidableEq

/-- A report status value of `CommentReport.STATUS_CHOICES`
(`content/models.py`). -/
inductive ReportStatus where
  | pending
  | under_review
  | resolved
  | dismissed
deriving Repr, DecidableEq

/-- A `CommentReport` row (`content/models.py`). -/
structure CommentReport where
  comment : Nat
  reporter : Nat
  reason : String
  description : String
  status : ReportStatus
  resolved_at : Option Nat
  resolved_by : Option Nat
  resolution_notes : String
deriving Repr, DecidableEq

/-- The error outcomes the views return to the HTTP layer.  `crash` stands
for an uncaught Python exception (an `AttributeError` on a `None` status or
a `DoesNotExist` from `objects.get`). -/
inductive ApiErr where
  | Forbidden
  | InvalidTransition
  | AlreadyResolved
  | DuplicateReport
  | CrossPostParent
  | NotFound
  | crash
deriving Repr, DecidableEq

deriving instance DecidableEq for Except

/-! ## Reading time (`content/models.py`, `Post.reading_time`)

`reading_time` computes `max(1, len(self.content.split()) // 200)`.
Python's `str.split()` with no separator splits on runs of whitespace and
drops leading and trailing whitespace. -/

/-- The ASCII whitespace characters `str.split()` splits on. -/
def isSpaceChar (c : Char) : Bool :=
  c = ' ' || c = '\t' || c = '\n' || c = '\r' || c = '\x0b' || c = '\x0c'

/-- Accumulator-based model of Python `str.split()`: `acc` holds the
(reversed) current word. -/
def pySplitAux : List Char → List Char → List (List Char)
  | [], acc => if acc.isEmpty then [] else [acc.reverse]
  | c :: cs, acc =>
    if isSpaceChar c then
      if acc.isEmpty then pySplitAux cs [] else acc.reverse :: pySplitAux cs []
    else
      pySplitAux cs (c :: acc)

/-- Model of `content.split()`: the list of maximal non-whitespace runs. -/
def pySplit (s : List Char) : List (List Char) :=
  pySplitAux s []

/-- Model of `Post.reading_time`: `max(1, word_count // 200)` with
`word_count = len(content.split())`. -/
def reading_time (content : List Char) : Nat :=
  max 1 ((pySplit content).length / 200)

/-- Spec-side word counter: the number of whitespace-separated words,
counted directly as the number of transitions into a non-whitespace run
(`inWord` records whether the previous character was part of a word). -/
def wordCountAux : Bool → List Char → Nat
  | _, [] => 0
  | inWord, c :: cs =>
    if isSpaceChar c then wordCountAux false cs
    else (if inWord then 0 else 1) + wordCountAux true cs

/-- The number of whitespace-separated words, per the spec's wording. -/
def wordCount (s : List Char) : Nat :=
  wordCountAux false s

lemma pySplitAux_length (s : List Char) :
    ∀ acc : List Char,
      (pySplitAux s acc).length
        = wordCountAux (!acc.isEmpty) s + (if acc.isEmpty then 0 else 1) := by
  induction s with
  | nil =>
    intro acc
    by_cases h : acc.isEmpty
    · simp [pySplitAux, wordCountAux, h]
    · simp [pySplitAux, wordCountAux, h]
  | cons c cs ih =>
    intro acc
    by_cases hsp : isSpaceChar c
    · by_cases h : acc.isEmpty
      · simp [pySplitAux, wordCountAux, hsp, h, ih]
      · simp [pySplitAux, wordCountAux, hsp, h, ih]
    · by_cases h : acc.isEmpty
      · simp [pySplitAux, wordCountAux, hsp, h, ih (c :: acc)]
        omega
      · simp [pySplitAux, wordCountAux, hsp, h, ih (c :: acc)]

lemma pySplit_length (s : List Char) : (pySplit s).length = wordCount s := by
  simpa [pySplit, wordCount] using pySplitAux_length s []

/-- A body of exactly 400 whitespace-separated words. -/
def fourHundredWords : List Char :=
  (List.replicate 400 ['w', ' ']).flatten

set_option maxRecDepth 40000 in
/-- Claim C7: for every post, `reading_time` equals
`max 1 (wordCount content / 200)` where `wordCount` counts
whitespace-separated words; it is `1` on empty content and `2` on content
of exactly 400 whitespace-separated words. -/
theorem C7_reading_time :
    (∀ content : List Char, reading_time content = max 1 (wordCount content / 200)) ∧
    reading_time [] = 1 ∧
    reading_time fourHundredWords = 2 := by
  refine ⟨fun content => ?_, rfl, ?_⟩
  · rw [reading_time, pySplit_length]
  · decide

/-! ## Derived `is_published` (Claim C1)

`content/models.py` lines 256-264:
`return (self.status and self.status.is_published and self.published_at
and self.published_at <= timezone.now())`, collapsed to a boolean by
Python truthiness (a `None` status or `None` timestamp short-circuits to
falsy).

`blog_app/models.py` lines 157-160:
`return self.status and self.status.is_published` - it never consults
`published_at`. -/

/-- Model of `Post.is_published` of the content app, evaluated at time `now`. -/
def content_is_published (p : Post) (now : Nat) : Bool :=
  match p.status with
  | none => false
  | some st =>
    st.is_published &&
      (match p.published_at with
       | none => false
       | some t => decide (t ≤ now))

/-- Model of `Post.is_published` of the blog_app variant: the status flag alone. -/
def blog_is_published (p : Post) : Bool :=
  match p.status with
  | none => false
  | some st => st.is_published

/-- A published-flagged status row. -/
def pubStatus : PostStatus :=
  { name := "published", slug := "published"
    is_published := true, is_active := true, sort_order := 1 }

/-- A draft (non-published) status row. -/
def draftStatus : PostStatus :=
  { name := "draft", slug := "draft"
    is_published := false, is_active := true, sort_order := 0 }

/-- A post whose status is published-flagged but whose `published_at` was
never stamped. -/
def unstampedPost : Post :=
  { id := 1, slug := "p1", author := 10, content := []
    status := some pubStatus, published_at := none }

/-- Claim C1 as stated is false: `unstampedPost` has a published-flagged
status and an unset `published_at`, yet the blog_app derivation of
`is_published` (one of the two implementations the claim covers) reports
`true`, where the claim requires `false`. -/
theorem C1_counterexample :
    (unstampedPost.status.map PostStatus.is_published = some true) ∧
    unstampedPost.published_at = none ∧
    blog_is_published unstampedPost = true := by
  decide

/-- Claim C1 amended: the content app's `is_published` is true exactly when
the post has a status, that status is published-flagged, `published_at` is
set and `published_at ≤ now`; the blog_app variant is true exactly when the
post has a published-flagged status, ignoring `published_at` entirely. -/
theorem C1_amended_is_published :
    (∀ (p : Post) (now : Nat),
      content_is_published p now = true ↔
        ∃ st, p.status = some st ∧ st.is_published = true ∧
          ∃ t, p.published_at = some t ∧ t ≤ now) ∧
    (∀ p : Post,
      blog_is_published p = true ↔
        ∃ st, p.status = some st ∧ st.is_published = true) := by
  constructor
  · intro p now
    cases hst : p.status with
    | none => simp [content_is_published, hst]
    | some st =>
      cases hpa : p.published_at with
      | none => simp [content_is_published, hst, hpa]
      | some t => simp [content_is_published, hst, hpa, and_assoc]
  · intro p
    cases hst : p.status with
    | none => simp [blog_is_published, hst]
    | some st => simp [blog_is_published, hst]

/-! ## `Post.save` and `published_at` stamping (Claim C2)

`blog_app/models.py` lines 132-155.  The registry is the `PostStatus`
table, modelled as a list in its Meta default ordering
(sort_order, then name); the draft-status lookup is the head of the
order-preserving filter on slug and the is_active flag. -/

/-- Model of the default-status lookup: the statuses with slug draft and
the is_active flag set, in table order, taking the first. -/
def firstDraft (reg : List PostStatus) : Option PostStatus :=
  (reg.filter (fun st => st.slug = "draft" && st.is_active)).head?

/-- Model of `Post.save` of `blog_app/models.py`, executed at time `now`:
fall back to the registry's active draft status when no status is set,
then stamp `published_at := now` when the status is published-flagged and
`published_at` is unset, clear it when the status is non-published-flagged,
and leave it alone otherwise. -/
def blog_save (reg : List PostStatus) (now : Nat) (p : Post) : Post :=
  let p1 :=
    match p.status with
    | none =>
      match firstDraft reg with
      | some st => { p with status := some st }
      | none => p
    | some _ => p
  match p1.status with
  | some st =>
    if st.is_published && p1.published_at.isNone then
      { p1 with published_at := some now }
    else if !st.is_published then
      { p1 with published_at := none }
    else p1
  | none => p1

lemma blog_save_status_some (reg : List PostStatus) (now : Nat) (p : Post)
    (st : PostStatus) (h : p.status = some st) :
    blog_save reg now p =
      if st.is_published && p.published_at.isNone then
        { p with published_at := some now }
      else if !st.is_published then
        { p with published_at := none }
      else p := by
  simp [blog_save, h]

/-- Claim C2: across save operations, `published_at` is stamped with the
save's current time exactly on a save whose status is published-flagged
while `published_at` is unset, is cleared on every save whose status is
non-published-flagged, and a second save with a published-flagged status
leaves the already-stamped `published_at` unchanged. -/
theorem C2_save_published_at :
    (∀ (reg : List PostStatus) (now : Nat) (p : Post) (st : PostStatus),
      p.status = some st → st.is_published = true → p.published_at = none →
        (blog_save reg now p).published_at = some now) ∧
    (∀ (reg : List PostStatus) (now : Nat) (p : Post) (st : PostStatus),
      p.status = some st → st.is_published = false →
        (blog_save reg now p).published_at = none) ∧
    (∀ (reg : List PostStatus) (now : Nat) (p : Post) (st : PostStatus) (t : Nat),
      p.status = some st → st.is_published = true → p.published_at = some t →
        (blog_save reg now p).published_at = some t) ∧
    (∀ (reg : List PostStatus) (t1 t2 : Nat) (p : Post) (st : PostStatus),
      p.status = some st → st.is_published = true →
        (blog_save reg t2 (blog_save reg t1 p)).published_at
          = (blog_save reg t1 p).published_at) := by
  refine ⟨?_, ?_, ?_, ?_⟩
  · intro reg now p st h hf hpa
    rw [blog_save_status_some reg now p st h]
    simp [hf, hpa]
  · intro reg now p st h hf
    rw [blog_save_status_some reg now p st h]
    simp [hf]
  · intro reg now p st t h hf hpa
    rw [blog_save_status_some reg now p st h]
    simp [hf, hpa]
  · intro reg t1 t2 p st h hf
    have h1 : (blog_save reg t1 p).status = some st := by
      rw [blog_save_status_some reg t1 p st h]
      by_cases hpa : p.published_at.isNone <;> simp [hf, hpa, h]
    have h2 : ∃ u, (blog_save reg t1 p).published_at = some u := by
      cases hpa : p.published_at with
      | none =>
        exact ⟨t1, by rw [blog_save_status_some reg t1 p st h]; simp [hf, hpa]⟩
      | some u =>
        exact ⟨u, by rw [blog_save_status_some reg t1 p st h]; simp [hf, hpa]⟩
    obtain ⟨u, hu⟩ := h2
    rw [blog_save_status_some reg t2 (blog_save reg t1 p) st h1]
    simp [hf, hu]

/-- A draft post of author 10 with no timestamp. -/
def draftPost : Post :=
  { id := 2, slug := "p2", author := 10, content := []
    status := some draftStatus, published_at := none }

/-- Witness for C2 at concrete inputs: stamping a fresh publish-save,
clearing a draft-save, keeping an existing stamp, and idempotence of a
repeated publish-save. -/
theorem C2_witness :
    (blog_save [] 5 { draftPost with status := some pubStatus }).published_at
        = some 5 ∧
    (blog_save [] 5 draftPost).published_at = none ∧
    (blog_save [] 9
        { draftPost with status := some pubStatus,
                         published_at := some 5 }).published_at = some 5 ∧
    (blog_save [] 9
        (blog_save [] 5
          { draftPost with status := some pubStatus })).published_at
      = (blog_save [] 5 { draftPost with status := some pubStatus }).published_at := by
  refine ⟨?_, ?_, ?_, ?_⟩
  · exact C2_save_published_at.1 [] 5 _ pubStatus rfl rfl rfl
  · exact C2_save_published_at.2.1 [] 5 _ draftStatus rfl rfl
  · exact C2_save_published_at.2.2.1 [] 9 _ pubStatus 5 rfl rfl rfl
  · exact C2_save_published_at.2.2.2 [] 5 9 _ pubStatus rfl rfl

/-! ## `publish` / `unpublish` actions (Claim C5)

`blog_app/api_views.py` lines 155-209.  `publish` rejects any caller other
than the post's author (the staff flag is never consulted), then rejects
any post whose status is not literally named `draft`, then switches to the
status named `published`, stamps `published_at = now`, and saves.
`unpublish` is symmetric with the two status names swapped and
`published_at` cleared.  `post.status.name` on a `None` status and
`objects.get` on a missing name raise uncaught exceptions, modelled as
`ApiErr.crash`. -/

/-- Model of the status lookup by unique name. -/
def getByName (reg : List PostStatus) (n : String) : Option PostStatus :=
  reg.find? (fun st => st.name = n)

/-- Model of `PostViewSet.publish` of blog_app. -/
def blog_publish (reg : List PostStatus) (actor : UserRec) (now : Nat)
    (p : Post) : Except ApiErr Post :=
  if p.author ≠ actor.id then .error .Forbidden
  else
    match p.status with
    | none => .error .crash
    | some st =>
      if st.name ≠ "draft" then .error .InvalidTransition
      else
        match getByName reg "published" with
        | none => .error .crash
        | some pub =>
          .ok (blog_save reg now { p with status := some pub, published_at := some now })

/-- Model of `PostViewSet.unpublish` of blog_app. -/
def blog_unpublish (reg : List PostStatus) (actor : UserRec) (now : Nat)
    (p : Post) : Except ApiErr Post :=
  if p.author ≠ actor.id then .error .Forbidden
  else
    match p.status with
    | none => .error .crash
    | some st =>
      if st.name ≠ "published" then .error .InvalidTransition
      else
        match getByName reg "draft" with
        | none => .error .crash
        | some d =>
          .ok (blog_save reg now { p with status := some d, published_at := none })

/-- The status registry holding the draft and published rows. -/
def exReg : List PostStatus := [draftStatus, pubStatus]

/-- An administrator who is not the author of `draftPost` (author 10). -/
def adminUser : UserRec := { id := 99, is_staff := true }

/-- The author of `draftPost` and `reviewPost`. -/
def authorUser : UserRec := { id := 10, is_staff := false }

/-- A non-published status that is not named `draft`. -/
def reviewStatus : PostStatus :=
  { name := "review", slug := "review"
    is_published := false, is_active := true, sort_order := 2 }

/-- A post of author 10 sitting in the non-published `review` status. -/
def reviewPost : Post :=
  { id := 3, slug := "p3", author := 10, content := []
    status := some reviewStatus, published_at := none }

/-- Claim C5 as stated is false at two concrete inputs: an administrator
who is not the author is rejected with Forbidden (the claim says publish
succeeds for administrators), and the author publishing from the
non-published `review` status gets InvalidTransition (the claim says
publish is valid from every non-published status). -/
theorem C5_counterexample :
    adminUser.is_staff = true ∧
    draftPost.author ≠ adminUser.id ∧
    blog_publish exReg adminUser 5 draftPost = .error .Forbidden ∧
    reviewPost.author = authorUser.id ∧
    (reviewPost.status.map PostStatus.is_published = some false) ∧
    blog_publish exReg authorUser 5 reviewPost = .error .InvalidTransition := by
  decide

/-- Claim C5 amended: `publish` and `unpublish` fail with Forbidden for
every actor other than the post's author, administrators included;
for the author, `publish` fails with InvalidTransition unless the current
status is named `draft` (and then succeeds when the registry has a
`published` status), and `unpublish` fails with InvalidTransition unless
the current status is named `published` (and then succeeds when the
registry has a `draft` status). -/
theorem C5_amended_publish_unpublish :
    (∀ (reg : List PostStatus) (a : UserRec) (now : Nat) (p : Post),
      p.author ≠ a.id →
        blog_publish reg a now p = .error .Forbidden ∧
        blog_unpublish reg a now p = .error .Forbidden) ∧
    (∀ (reg : List PostStatus) (a : UserRec) (now : Nat) (p : Post) (st : PostStatus),
      p.author = a.id → p.status = some st → st.name ≠ "draft" →
        blog_publish reg a now p = .error .InvalidTransition) ∧
    (∀ (reg : List PostStatus) (a : UserRec) (now : Nat) (p : Post) (st pub : PostStatus),
      p.author = a.id → p.status = some st → st.name = "draft" →
        getByName reg "published" = some pub →
        ∃ q, blog_publish reg a now p = .ok q) ∧
    (∀ (reg : List PostStatus) (a : UserRec) (now : Nat) (p : Post) (st : PostStatus),
      p.author = a.id → p.status = some st → st.name ≠ "published" →
        blog_unpublish reg a now p = .error .InvalidTransition) ∧
    (∀ (reg : List PostStatus) (a : UserRec) (now : Nat) (p : Post) (st d : PostStatus),
      p.author = a.id → p.status = some st → st.name = "published" →
        getByName reg "draft" = some d →
        ∃ q, blog_unpublish reg a now p = .ok q) := by
  refine ⟨?_, ?_, ?_, ?_, ?_⟩
  · intro reg a now p hne
    exact ⟨by simp [blog_publish, hne], by simp [blog_unpublish, hne]⟩
  · intro reg a now p st ha hst hn
    simp [blog_publish, ha, hst, hn]
  · intro reg a now p st pub ha hst hn hget
    refine ⟨blog_save reg now { p with status := some pub, published_at := some now }, ?_⟩
    simp [blog_publish, ha, hst, hn, hget]
  · intro reg a now p st ha hst hn
    simp [blog_unpublish, ha, hst, hn]
  · intro reg a now p st d ha hst hn hget
    refine ⟨blog_save reg now { p with status := some d, published_at := none }, ?_⟩
    simp [blog_unpublish, ha, hst, hn, hget]

/-- Witness for C5 at concrete inputs: a stranger is Forbidden, the author
cannot publish from `review`, can publish from `draft`, cannot unpublish a
draft, and can unpublish a published post. -/
theorem C5_witness :
    blog_publish exReg adminUser 5 draftPost = .error .Forbidden ∧
    blog_publish exReg authorUser 5 reviewPost = .error .InvalidTransition ∧
    (∃ q, blog_publish exReg authorUser 5 draftPost = .ok q) ∧
    blog_unpublish exReg authorUser 5 draftPost = .error .InvalidTransition ∧
    (∃ q, blog_unpublish exReg authorUser 5
        { draftPost with status := some pubStatus, published_at := some 4 } = .ok q) := by
  refine ⟨?_, ?_, ?_, ?_, ?_⟩
  · exact (C5_amended_publish_unpublish.1 exReg adminUser 5 draftPost (by decide)).1
  · exact C5_amended_publish_unpublish.2.1 exReg authorUser 5 reviewPost
      reviewStatus rfl rfl (by decide)
  · exact C5_amended_publish_unpublish.2.2.1 exReg authorUser 5 draftPost
      draftStatus pubStatus rfl rfl rfl (by decide)
  · exact C5_amended_publish_unpublish.2.2.2.1 exReg authorUser 5 draftPost
      draftStatus rfl rfl (by decide)
  · exact C5_amended_publish_unpublish.2.2.2.2 exReg authorUser 5 _
      pubStatus draftStatus rfl rfl rfl (by decide)

/-! ## Report resolution (Claim C3)

`content/views.py` lines 399-415, `CommentReportViewSet.resolve`: after the
staff check it unconditionally sets the status to resolved,
`resolved_by = request.user`, `resolved_at = now()` and the notes - there
is no check that the report is still open. -/

/-- Model of `CommentReportViewSet.resolve` of the content app. -/
def content_resolve (actor : UserRec) (now : Nat) (notes : String)
    (r : CommentReport) : Except ApiErr CommentReport :=
  if !actor.is_staff then .error .Forbidden
  else
    .ok { r with status := .resolved
                 resolved_by := some actor.id
                 resolved_at := some now
                 resolution_notes := notes }

/-- A staff actor. -/
def staffUser : UserRec := { id := 7, is_staff := true }

/-- A report that is already in the terminal `resolved` state. -/
def resolvedReport : CommentReport :=
  { comment := 1, reporter := 20, reason := "spam", description := ""
    status := .resolved, resolved_at := some 3, resolved_by := some 7
    resolution_notes := "done" }

/-- Claim C3 as stated is false at a concrete input: resolving an
already-resolved report does not fail with AlreadyResolved - it succeeds
and overwrites the resolution fields. -/
theorem C3_counterexample :
    resolvedReport.status = .resolved ∧
    content_resolve staffUser 9 "again" resolvedReport ≠
      .error .AlreadyResolved ∧
    content_resolve staffUser 9 "again" resolvedReport =
      .ok { resolvedReport with resolved_at := some 9,
                                resolution_notes := "again" } := by
  refine ⟨rfl, by decide, by decide⟩

/-- Claim C3 amended: `resolve` is staff-only (Forbidden for non-staff
actors) and on success sets status to resolved with `resolved_at = now` and
`resolved_by` the resolving actor; it performs no terminal-state check, so
a report whose status is already resolved or dismissed is resolved again
(its resolution fields overwritten) rather than failing with
AlreadyResolved. -/
theorem C3_amended_resolve :
    (∀ (a : UserRec) (now : Nat) (notes : String) (r : CommentReport),
      a.is_staff = false →
        content_resolve a now notes r = .error .Forbidden) ∧
    (∀ (a : UserRec) (now : Nat) (notes : String) (r : CommentReport),
      a.is_staff = true →
        content_resolve a now notes r =
          .ok { r with status := .resolved
                       resolved_by := some a.id
                       resolved_at := some now
                       resolution_notes := notes }) := by
  constructor
  · intro a now notes r h
    simp [content_resolve, h]
  · intro a now notes r h
    simp [content_resolve, h]

/-- Witness for C3 at concrete inputs: a non-staff reporter is Forbidden
and a staff actor resolves a pending report, setting the resolution
fields. -/
theorem C3_witness :
    content_resolve authorUser 9 "n" resolvedReport = .error .Forbidden ∧
    content_resolve staffUser 9 "n"
        { resolvedReport with status := .pending } =
      .ok { resolvedReport with status := .resolved, resolved_by := some 7,
                                resolved_at := some 9,
                                resolution_notes := "n" } := by
  constructor
  · exact C3_amended_resolve.1 authorUser 9 "n" resolvedReport rfl
  · exact C3_amended_resolve.2 staffUser 9 "n"
      { resolvedReport with status := .pending } rfl

/-! ## Comment approve / reject (Claim C4)

`comments/api_views.py` lines 112-142: both actions check `is_staff`,
set `is_approved` and save the comment.  Neither touches the
`CommentModeration` table, so the operations are modelled over the pair of
the comment and that table's rows, which they return unchanged. -/

/-- Model of `CommentViewSet.approve` of the comments app, acting on the comment
and the `CommentModeration` table. -/
def comments_approve (actor : UserRec) (c : Comment)
    (log : List CommentModeration) :
    Except ApiErr (Comment × List CommentModeration) :=
  if !actor.is_staff then .error .Forbidden
  else .ok ({ c with is_approved := true }, log)

/-- Model of `CommentViewSet.reject` of the comments app. -/
def comments_reject (actor : UserRec) (c : Comment)
    (log : List CommentModeration) :
    Except ApiErr (Comment × List CommentModeration) :=
  if !actor.is_staff then .error .Forbidden
  else .ok ({ c with is_approved := false }, log)

/-- An unapproved comment on post 1. -/
def pendingComment : Comment :=
  { id := 4, post := 1, author := 20, content := []
    parent := none, is_approved := false, is_flagged := false }

/-- Claim C4 as stated is false at a concrete input: a staff approve
succeeds and flips the flag, but the `CommentModeration` table stays empty
- no log entry recording the action and the moderator is appended. -/
theorem C4_counterexample :
    comments_approve staffUser pendingComment [] =
      .ok ({ pendingComment with is_approved := true }, []) ∧
    comments_reject staffUser { pendingComment with is_approved := true } [] =
      .ok (pendingComment, []) := by
  decide

/-- Claim C4 amended: `approve` and `reject` fail with Forbidden when the
actor is not staff, and each successful call flips the comment's
`is_approved` flag (true for approve, false for reject) while leaving the
`CommentModeration` log unchanged - no moderation entry is appended. -/
theorem C4_amended_approve_reject :
    (∀ (a : UserRec) (c : Comment) (log : List CommentModeration),
      a.is_staff = false →
        comments_approve a c log = .error .Forbidden ∧
        comments_reject a c log = .error .Forbidden) ∧
    (∀ (a : UserRec) (c : Comment) (log : List CommentModeration),
      a.is_staff = true →
        comments_approve a c log = .ok ({ c with is_approved := true }, log) ∧
        comments_reject a c log = .ok ({ c with is_approved := false }, log)) := by
  constructor
  · intro a c log h
    exact ⟨by simp [comments_approve, h], by simp [comments_reject, h]⟩
  · intro a c log h
    exact ⟨by simp [comments_approve, h], by simp [comments_reject, h]⟩

/-- Witness for C4 at concrete inputs. -/
theorem C4_witness :
    comments_approve authorUser pendingComment [] = .error .Forbidden ∧
    comments_approve staffUser pendingComment [] =
      .ok ({ pendingComment with is_approved := true }, []) := by
  constructor
  · exact (C4_amended_approve_reject.1 authorUser pendingComment [] rfl).1
  · exact (C4_amended_approve_reject.2 staffUser pendingComment [] rfl).1

/-! ## Comment creation and the cross-post parent check (Claim C6)

`comments/serializers.py` lines 59-67: `validate_parent` compares
`value.post.id` with the submitted post id taken from the raw request
data (coerced by `int`) and rejects a
mismatch (the request body is dict-like, so the `hasattr` guard passes).

`comments/api_views.py` lines 70-84, `CommentViewSet.reply`: copies the
request data, then overwrites its parent entry with the addressed
comment's id and its post entry with that comment's own post id
before validating, discarding whatever post the client submitted. -/

/-- Model of `CommentCreateSerializer.validate_parent` of the comments app:
`parent` is the resolved parent comment, `postId` the submitted post id. -/
def comments_validate_parent (parent : Option Comment) (postId : Nat) :
    Except ApiErr Unit :=
  match parent with
  | none => .ok ()
  | some pc => if pc.post ≠ postId then .error .CrossPostParent else .ok ()

/-- A new `Comment` row as the comments-app serializer saves it: the
submitted `post`, `content` and `parent` plus the model defaults
`is_approved = True`, `is_flagged = False` (`comments/models.py` line 33,
`content/models.py` lines 336-337). -/
def mkComment (newId postId authorId : Nat) (content : List Char)
    (parent : Option Nat) : Comment :=
  { id := newId, post := postId, author := authorId, content := content
    parent := parent, is_approved := true, is_flagged := false }

/-- Direct comment creation through `CommentCreateSerializer`: validate the
parent, then save. -/
def comments_create (newId : Nat) (actor : UserRec) (postId : Nat)
    (content : List Char) (parent : Option Comment) :
    Except ApiErr Comment :=
  match comments_validate_parent parent postId with
  | .error e => .error e
  | .ok _ => .ok (mkComment newId postId actor.id content (parent.map Comment.id))

/-- Model of `CommentViewSet.reply`: `submittedPost` is the post id the client put
in the request body; the view overwrites it with `parentC.post` before
validating and saving. -/
def comments_reply (newId : Nat) (actor : UserRec) (parentC : Comment)
    (submittedPost : Option Nat) (content : List Char) :
    Except ApiErr Comment :=
  let postId := parentC.post
  match comments_validate_parent (some parentC) postId with
  | .error e => .error e
  | .ok _ => .ok (mkComment newId postId actor.id content (some parentC.id))

/-- A parent comment living on post 1. -/
def parentOnPost1 : Comment :=
  { id := 6, post := 1, author := 20, content := []
    parent := none, is_approved := true, is_flagged := false }

/-- Claim C6 as stated is false at a concrete input: a reply request that
submits post 2 while the parent comment lives on post 1 does not fail with
CrossPostParent - the `reply` action silently reassigns the new comment to
the parent's post 1. -/
theorem C6_counterexample :
    parentOnPost1.post = 1 ∧
    comments_reply 7 authorUser parentOnPost1 (some 2) [] =
      .ok (mkComment 7 1 authorUser.id [] (some 6)) := by
  decide

/-- Claim C6 amended: direct creation through the comments-app serializer
fails with CrossPostParent whenever the parent belongs to a different post
than the submitted one, but the `reply` action ignores the submitted post
and always creates the comment on the parent's own post, silently
reassigning it instead of failing. -/
theorem C6_amended_cross_post_parent :
    (∀ (newId : Nat) (a : UserRec) (postId : Nat) (content : List Char)
       (pc : Comment),
      pc.post ≠ postId →
        comments_create newId a postId content (some pc) =
          .error .CrossPostParent) ∧
    (∀ (newId : Nat) (a : UserRec) (pc : Comment) (submittedPost : Option Nat)
       (content : List Char),
      comments_reply newId a pc submittedPost content =
        .ok (mkComment newId pc.post a.id content (some pc.id))) := by
  constructor
  · intro newId a postId content pc h
    simp [comments_create, comments_validate_parent, h]
  · intro newId a pc submittedPost content
    simp [comments_reply, comments_validate_parent]

/-- Witness for C6 at concrete inputs: creating directly on post 2 with a
parent on post 1 fails, and a reply lands on the parent's post whatever
post the client submitted. -/
theorem C6_witness :
    comments_create 7 authorUser 2 [] (some parentOnPost1) =
      .error .CrossPostParent ∧
    comments_reply 7 authorUser parentOnPost1 (some 2) [] =
      .ok (mkComment 7 1 authorUser.id [] (some 6)) := by
  constructor
  · exact C6_amended_cross_post_parent.1 7 authorUser 2 [] parentOnPost1 (by decide)
  · exact C6_amended_cross_post_parent.2 7 authorUser parentOnPost1 (some 2) []

/-! ## The content app's broken parent validator (Claim C9)

`content/serializers.py` lines 194-207: `validate_parent` raises when
`value.post` compares unequal to the submitted raw post value.  There
`value.post` is a `Post` model instance while the submitted value is the one
(a JSON number, string or null), so Python's `==` applies Django's
`Model.__eq__`, which only equates two model instances of the same class
with the same primary key.  A tiny value universe captures that
comparison. -/

/-- The Python values that can meet in the comparison: a Django model
instance (class name plus primary key) or a raw request value. -/
inductive PyValue where
  | pyModel (cls : String) (pk : Nat)
  | pyNum (n : Int)
  | pyStr (s : String)
  | pyNone
deriving Repr, DecidableEq

/-- Python `==` restricted to this universe: Django `Model.__eq__` equates
only model instances of the same class with the same pk; a model instance
never equals a number, a string or `None`. -/
def pyEq : PyValue → PyValue → Bool
  | .pyModel c1 p1, .pyModel c2 p2 => c1 = c2 && p1 = p2
  | .pyNum a, .pyNum b => a = b
  | .pyStr a, .pyStr b => a = b
  | .pyNone, .pyNone => true
  | _, _ => false

/-- Model of `CommentCreateSerializer.validate_parent` of the content app:
`rawPost` is the raw submitted post value, compared against the parent's
`Post` instance. -/
def content_validate_parent (parent : Option Comment) (rawPost : PyValue) :
    Except ApiErr (Option Comment) :=
  match parent with
  | none => .ok none
  | some pc =>
    if !pyEq (.pyModel "Post" pc.post) rawPost then .error .CrossPostParent
    else .ok (some pc)

/-- Claim C9: the content app's `validate_parent` compares the parent's
`Post` instance against the raw submitted value, so every creation input
with a non-null parent fails - even when the submitted raw post id is the
parent's own post - and no threaded reply can pass this serializer.
`rawPost` ranges over the values a JSON request body can hold (number,
string or null), never a model instance. -/
theorem C9_validate_parent_always_fails :
    ∀ (pc : Comment) (rawPost : PyValue),
      (∀ cls pk, rawPost ≠ .pyModel cls pk) →
      content_validate_parent (some pc) rawPost = .error .CrossPostParent := by
  intro pc rawPost hraw
  cases rawPost with
  | pyModel cls pk => exact absurd rfl (hraw cls pk)
  | pyNum n => simp [content_validate_parent, pyEq]
  | pyStr s => simp [content_validate_parent, pyEq]
  | pyNone => simp [content_validate_parent, pyEq]

/-- Witness for C9 at a concrete input: the parent lives on post 1 and the
client submits the very same post id 1, yet validation fails. -/
theorem C9_witness :
    content_validate_parent (some parentOnPost1) (.pyNum 1) =
      .error .CrossPostParent :=
  C9_validate_parent_always_fails parentOnPost1 (.pyNum 1)
    (fun cls pk h => PyValue.noConfusion h)

/-! ## Default approval of new comments (Claim C10)

`comments/models.py` line 33 and `content/models.py` line 336 both declare
`is_approved = models.BooleanField(default=True)`, and the create
serializers expose only `post`, `content` and `parent`, so a saved comment
takes the default.  Approved-only listings filter on
`is_approved=True` (`Comment.get_replies`, the comment querysets). -/

/-- An approved-only listing: `filter(is_approved=True)` keeping the
queryset order. -/
def approvedOnly (cs : List Comment) : List Comment :=
  cs.filter (fun c => c.is_approved)

/-- Claim C10: a newly created comment that does not set `is_approved`
explicitly carries the model default `True` and therefore appears in any
approved-only listing of a table containing it, with no moderation step in
between. -/
theorem C10_default_approved :
    ∀ (newId postId authorId : Nat) (content : List Char)
      (parent : Option Nat) (table : List Comment),
      (mkComment newId postId authorId content parent).is_approved = true ∧
      mkComment newId postId authorId content parent ∈
        approvedOnly (table ++ [mkComment newId postId authorId content parent]) := by
  intro newId postId authorId content parent table
  refine ⟨rfl, ?_⟩
  simp [approvedOnly, List.mem_filter, mkComment]

/-! ## Report uniqueness (Claim C8)

`content/models.py` lines 460-467 and `comments/models.py` lines 117-119
declare the pair of comment and reporter as unique_together.  The
database rejects
an insert that repeats an existing `(comment, reporter)` pair; the spec
names this failure DuplicateReport.  `CommentReportViewSet.perform_create`
stores the requesting user as the reporter and the model default status
`pending`. -/

/-- Whether the report table already holds a row for this
`(comment, reporter)` pair. -/
def hasReportPair (db : List CommentReport) (commentId reporterId : Nat) : Bool :=
  db.any (fun x => x.comment = commentId && x.reporter = reporterId)

/-- Inserting a `CommentReport` row under the `unique_together`
constraint: the insert fails on a duplicate `(comment, reporter)` pair. -/
def insertReport (db : List CommentReport) (r : CommentReport) :
    Except ApiErr (List CommentReport) :=
  if hasReportPair db r.comment r.reporter then .error .DuplicateReport
  else .ok (db ++ [r])

/-- The row `perform_create` stores: the requesting user is the reporter,
status starts at the model default `pending`. -/
def reportRow (actor : UserRec) (commentId : Nat) (reason desc : String) :
    CommentReport :=
  { comment := commentId, reporter := actor.id, reason := reason
    description := desc, status := .pending, resolved_at := none
    resolved_by := none, resolution_notes := "" }

/-- Report creation: insert the `perform_create` row under the uniqueness
constraint. -/
def report_create (db : List CommentReport) (actor : UserRec)
    (commentId : Nat) (reason desc : String) :
    Except ApiErr (List CommentReport) :=
  insertReport db (reportRow actor commentId reason desc)

/-- At most one report per `(comment, reporter)` pair. -/
def uniquePairs (db : List CommentReport) : Prop :=
  db.Pairwise (fun a b => ¬(a.comment = b.comment ∧ a.reporter = b.reporter))

lemma reportRow_comment (a : UserRec) (cid : Nat) (r d : String) :
    (reportRow a cid r d).comment = cid := rfl

lemma reportRow_reporter (a : UserRec) (cid : Nat) (r d : String) :
    (reportRow a cid r d).reporter = a.id := rfl

/-- Claim C8: successful inserts preserve the at-most-one-report-per-pair
invariant, a second report of the same comment by the same reporter fails
with DuplicateReport, and reports of the same comment by two different
reporters both succeed (on a comment neither has reported before). -/
theorem C8_report_uniqueness :
    (∀ (db : List CommentReport) (r : CommentReport) (db2 : List CommentReport),
      uniquePairs db → insertReport db r = .ok db2 → uniquePairs db2) ∧
    (∀ (db db2 : List CommentReport) (a : UserRec) (commentId : Nat)
       (r1 d1 r2 d2 : String),
      report_create db a commentId r1 d1 = .ok db2 →
        report_create db2 a commentId r2 d2 = .error .DuplicateReport) ∧
    (∀ (db : List CommentReport) (a b : UserRec) (commentId : Nat)
       (r1 d1 r2 d2 : String),
      a.id ≠ b.id → hasReportPair db commentId a.id = false →
      hasReportPair db commentId b.id = false →
        ∃ db2 db3, report_create db a commentId r1 d1 = .ok db2 ∧
          report_create db2 b commentId r2 d2 = .ok db3) := by
  refine ⟨?_, ?_, ?_⟩
  · intro db r db2 hu hins
    rw [insertReport] at hins
    by_cases hdup : hasReportPair db r.comment r.reporter
    · simp [hdup] at hins
    · simp [hdup] at hins
      subst hins
      rw [uniquePairs, List.pairwise_append]
      refine ⟨hu, List.pairwise_singleton _ _, ?_⟩
      intro x hx y hy hxy
      have : x.comment = r.comment ∧ x.reporter = r.reporter := by
        simp [List.mem_singleton] at hy
        exact ⟨by rw [hxy.1, hy], by rw [hxy.2, hy]⟩
      exact hdup (by
        rw [hasReportPair, List.any_eq_true]
        exact ⟨x, hx, by simp [this.1, this.2]⟩)
  · intro db db2 a commentId r1 d1 r2 d2 hok
    rw [report_create, insertReport, reportRow_comment, reportRow_reporter] at hok
    by_cases hdup : hasReportPair db commentId a.id
    · simp [hdup] at hok
    · simp [hdup] at hok
      rw [report_create, insertReport, reportRow_comment, reportRow_reporter]
      have hmem : hasReportPair db2 commentId a.id = true := by
        rw [← hok, hasReportPair, List.any_eq_true]
        exact ⟨reportRow a commentId r1 d1,
          List.mem_append_right _ (List.mem_singleton_self _),
          by simp [reportRow_comment, reportRow_reporter]⟩
      simp [hmem]
  · intro db a b commentId r1 d1 r2 d2 hab ha hb
    refine ⟨db ++ [reportRow a commentId r1 d1],
            (db ++ [reportRow a commentId r1 d1]) ++ [reportRow b commentId r2 d2],
            ?_, ?_⟩
    · rw [report_create, insertReport, reportRow_comment, reportRow_reporter]
      simp [ha]
    · rw [report_create, insertReport, reportRow_comment, reportRow_reporter]
      have hfresh : hasReportPair (db ++ [reportRow a commentId r1 d1])
          commentId b.id = false := by
        rw [hasReportPair, List.any_eq_false]
        intro x hx
        rcases List.mem_append.mp hx with hx1 | hx2
        · have := (List.any_eq_false.mp hb) x hx1
          simpa using this
        · simp [List.mem_singleton] at hx2
          subst hx2
          simp [reportRow_comment, reportRow_reporter]
          exact fun h => absurd h hab
      simp [hfresh]

/-- Witness for C8 at concrete inputs: reporter 10 reports comment 1 into
an empty table, reporting again fails with DuplicateReport, while a report
of the same comment by reporter 7 still succeeds. -/
theorem C8_witness :
    (∃ db2 db3, report_create [] authorUser 1 "spam" "" = .ok db2 ∧
        report_create db2 staffUser 1 "spam" "" = .ok db3) ∧
    (∀ db2, report_create [] authorUser 1 "spam" "" = .ok db2 →
        report_create db2 authorUser 1 "again" "" = .error .DuplicateReport) := by
  constructor
  · exact C8_report_uniqueness.2.2 [] authorUser staffUser 1 "spam" "" "spam" ""
      (by decide) (by decide) (by decide)
  · intro db2 h
    exact C8_report_uniqueness.2.1 [] db2 authorUser 1 "spam" "" "again" "" h
